import Mathlib

/-!
Verification of the Emailit repository (an email-marketing dashboard):
a shallow embedding of `server/server.js` (the API gateway) and
`src/pages/Analytics.tsx` (the Log Viewer) together with theorems about
the behaviour of its endpoints and view logic.

Modelling conventions:
* JSON scalar values are the inductive `JVal`; JSON objects that are read
  from or written to the store files are modelled as the function type
  `Obj := String → Option JVal` (a JS object maps property names to values;
  an absent property reads as `undefined`, i.e. `none`).
* Each HTTP handler becomes a pure function from its request fields (each
  an `Option`, `none` for an absent body field), the current file contents
  (a `List Obj`) and, where the handler contacts the external provider, the
  provider's hypothetical answer (`ProviderResult`).  The function returns
  a record holding the HTTP status, the response body (a per-endpoint
  inductive), the provider call that was issued (if any) and the file
  contents written back (if any).  Nondeterministic inputs of the code
  (`crypto.randomUUID()`, `new Date()`) are extra oracle parameters.
* JS truthiness on strings (`!x` fails for a present non-empty string) is
  `truthyStr`; JS truthiness on arbitrary JSON values is `¬ jsFalsy`.
-/

namespace Emailit

/-- JSON scalar values, as far as the repository manipulates them;
`emptyObject` is the object literal `{}`, the only non-scalar value the
gateway itself constructs (in `data || {}`). -/
inductive JVal where
  | str (s : String)
  | bool (b : Bool)
  | num (n : Int)
  | null
  | emptyObject
deriving DecidableEq, Repr

/-- A JS object from the JSON store files: property name to value,
`none` when the property is absent (`undefined`). -/
def Obj := String → Option JVal

/-- The empty JS object `{}`. -/
def emptyObj : Obj := fun _ => none

/-- JS truthiness of a destructured string field: `undefined` and `""`
are falsy, every other string is truthy. -/
def truthyStr : Option String → Bool
  | none => false
  | some s => s != ""

/-- JS falsiness of a JSON value (`"", 0, false, null` are falsy). -/
def jsFalsy : JVal → Bool
  | .str s => s == ""
  | .bool b => !b
  | .num n => n == 0
  | .null => true
  | .emptyObject => false

/-- JS template-literal conversion of a possibly absent value, as in
`` `Bearer ${account.secretKey}` ``. -/
def jvalToString : Option JVal → String
  | none => "undefined"
  | some (.str s) => s
  | some (.bool b) => if b then "true" else "false"
  | some (.num n) => toString n
  | some .null => "null"
  | some .emptyObject => "[object Object]"

/-- An axios error, as the handlers inspect it: `error.response?.status`,
`error.response?.data` and `error.message`. -/
structure ProviderErr where
  status : Option Nat
  data : Option JVal
  message : String

/-- Outcome of the HTTP request the gateway makes to the provider. -/
inductive ProviderResult where
  | ok (data : JVal)
  | fail (e : ProviderErr)

/-- The request the gateway issued to the provider: URL, JSON payload
(as an ordered field list) and the `Authorization` header. -/
structure ProviderCall where
  url : String
  payload : List (String × JVal)
  authHeader : String

/-- `error.response?.status || 500` — the provider's status where
available (and nonzero, `0` being falsy in JS), else 500. -/
def providerStatusOr500 : Option Nat → Nat
  | some s => if s == 0 then 500 else s
  | none => 500

/-- `error.response?.data || error.message` — the provider's error body
where available (and truthy), else the error message. -/
def errDetails (e : ProviderErr) : JVal :=
  match e.data with
  | some d => if jsFalsy d then .str e.message else d
  | none => .str e.message

/-! ### POST /api/check-status (server.js lines 75–94) -/

/-- Response bodies of POST /api/check-status. -/
inductive CheckBody where
  | missingKey        -- 400 `{ message: 'Missing Secret Key' }`
  | connected (data : JVal)  -- `{ success: true, message: 'Connected to Plunk.', data }`
  | authFailed        -- 401, the fixed failure body
deriving DecidableEq, Repr

structure CheckResult where
  status : Nat
  body : CheckBody
  call : Option ProviderCall

/-- POST /api/check-status: guard on `secretKey`, then GET
`/v1/contacts?limit=1` with the key as bearer token; any provider failure
yields the fixed 401 response. -/
def checkStatusHandler (secretKey : Option String) (pr : ProviderResult) :
    CheckResult :=
  if !truthyStr secretKey then ⟨400, .missingKey, none⟩
  else
    let call : ProviderCall :=
      ⟨"https://api.useplunk.com/v1/contacts?limit=1", [],
       "Bearer " ++ secretKey.getD ""⟩
    match pr with
    | .ok d => ⟨200, .connected d, some call⟩
    | .fail _ => ⟨401, .authFailed, some call⟩

/-! ### POST /api/subscribers (server.js lines 97–111) -/

/-- Response bodies of POST /api/subscribers. -/
inductive SubBody where
  | emailRequired              -- 400 `{ error: "Email required" }`
  | alreadySubscribed          -- 409 `{ message: "Already subscribed" }`
  | subscribed (sub : Obj)     -- `{ success: true, subscriber: newSub }`

structure SubResult where
  status : Nat
  body : SubBody
  /-- The array written back to `subscribers.json`, when a write happens. -/
  write : Option (List Obj)

/-- The object `{ id: crypto.randomUUID(), email, joinedAt: new Date() }`;
`newId` and `now` stand for the two nondeterministic values. -/
def mkSubscriber (newId email now : String) : Obj :=
  fun k =>
    if k == "id" then some (.str newId)
    else if k == "email" then some (.str email)
    else if k == "joinedAt" then some (.str now)
    else none

/-- POST /api/subscribers: guard on `email`; a stored subscriber with the
same email yields 409 and no write (`subscribers.find(s => s.email === email)`
is truthy exactly when some entry's email matches, entries being objects);
otherwise the new subscriber is appended and written back. -/
def subscribersHandler (email : Option String) (subs : List Obj)
    (newId now : String) : SubResult :=
  if !truthyStr email then ⟨400, .emailRequired, none⟩
  else
    let e := email.getD ""
    if subs.any (fun s => s "email" == some (.str e)) then
      ⟨409, .alreadySubscribed, none⟩
    else
      let newSub := mkSubscriber newId e now
      ⟨200, .subscribed newSub, some (subs ++ [newSub])⟩

/-! ### PUT /api/accounts/:id (server.js lines 49–63) -/

/-- JS object spread `{ ...acc, ...body }`: fields of `body` override,
the rest of `acc` survives. -/
def mergeSpread (acc body : Obj) : Obj :=
  fun k => match body k with
  | some v => some v
  | none => acc k

/-- One step of the `accounts.map` loop of the PUT handler, made explicit
as a fold over the pair (accounts built so far, the mutable `updated`
variable of the closure). -/
def putStep (idp : String) (body : Obj) (st : List Obj × Option Obj)
    (acc : Obj) : List Obj × Option Obj :=
  if acc "id" == some (.str idp) then
    (st.1 ++ [mergeSpread acc body], some (mergeSpread acc body))
  else
    (st.1 ++ [acc], st.2)

structure PutResult where
  status : Nat
  /-- `res.json(updated || {})` — the merged account, or `{}`. -/
  body : Obj
  newAccounts : List Obj

/-- PUT /api/accounts/:id: map over the stored accounts replacing each
entry whose `id` equals the path parameter by the spread-merge with the
request body, write the result back, and answer 200 (express default)
with the last merged entry or `{}`. -/
def putAccountHandler (idp : String) (body : Obj) (accounts : List Obj) :
    PutResult :=
  let st := accounts.foldl (putStep idp body) ([], none)
  ⟨200, st.2.getD emptyObj, st.1⟩

/-! ### DELETE /api/accounts/:id (server.js lines 65–72) -/

structure DeleteResult where
  status : Nat
  newAccounts : List Obj

/-- DELETE /api/accounts/:id: keep the accounts whose `id` differs from
the path parameter (`accounts.filter(acc => acc.id !== req.params.id)`),
write back, answer 204. -/
def deleteAccountHandler (idp : String) (accounts : List Obj) :
    DeleteResult :=
  ⟨204, accounts.filter (fun acc => !(acc "id" == some (.str idp)))⟩

/-! ### POST /api/send-email (server.js lines 114–157) -/

/-- The request body of POST /api/send-email as destructured by the
handler (`to` and `from` collide with Lean tokens, hence `toField` and
`fromField`). -/
structure SendReq where
  accountId : Option String
  toField : Option String
  subject : Option String
  content : Option String
  fromField : Option String

/-- Response bodies of POST /api/send-email. -/
inductive SendBody where
  | missingParams              -- 400 `{ error: "Missing parameters" }`
  | accountNotFound            -- 404 `{ error: "Account not found" }`
  | sent (data : JVal)         -- the provider's response data, relayed
  | sendFailed (details : JVal) -- `{ error: "Failed to send email", details }`
deriving DecidableEq, Repr

structure SendResult where
  status : Nat
  body : SendBody
  call : Option ProviderCall

/-- The payload constructed for the provider: `to`, `subject`,
`body: content` (Plunk uses `body`, not `content`), a constant
`subscribed: true`, and `from: from.trim()` added only when `from` is
truthy and nonempty after trimming. -/
def sendPayload (toAddr subject content : String) (fromField : Option String) :
    List (String × JVal) :=
  [("to", .str toAddr), ("subject", .str subject), ("body", .str content),
   ("subscribed", .bool true)]
  ++ match fromField with
     | some f => if f != "" && f.trim != "" then [("from", .str f.trim)] else []
     | none => []

/-- POST /api/send-email: guard on the four required fields, look the
account up by id, POST the payload to `/v1/send` with the account's
secret key as bearer token, relay the provider's data on success and its
status/body (else 500/message) on failure. -/
def sendEmailHandler (req : SendReq) (accounts : List Obj)
    (pr : ProviderResult) : SendResult :=
  if !(truthyStr req.accountId && truthyStr req.toField && truthyStr req.subject
       && truthyStr req.content) then
    ⟨400, .missingParams, none⟩
  else
    let aid := req.accountId.getD ""
    match accounts.find? (fun a => a "id" == some (.str aid)) with
    | none => ⟨404, .accountNotFound, none⟩
    | some account =>
      let call : ProviderCall :=
        ⟨"https://api.useplunk.com/v1/send",
         sendPayload (req.toField.getD "") (req.subject.getD "")
           (req.content.getD "") req.fromField,
         "Bearer " ++ jvalToString (account "secretKey")⟩
      match pr with
      | .ok d => ⟨200, .sent d, some call⟩
      | .fail e => ⟨providerStatusOr500 e.status, .sendFailed (errDetails e),
                    some call⟩

/-- The payload shape claimed by the specification: exactly the request's
fields with `content` renamed to `body`, and `from` included (verbatim)
only when given.  Stated for comparison with `sendPayload`, which is what
the code builds. -/
def sendPayloadClaimed (toAddr subject content : String)
    (fromField : Option String) : List (String × JVal) :=
  [("to", .str toAddr), ("subject", .str subject), ("body", .str content)]
  ++ match fromField with
     | some f => [("from", .str f)]
     | none => []

/-! ### POST /api/track-event (server.js lines 159–194) -/

/-- The request body of POST /api/track-event as destructured. -/
structure TrackReq where
  accountId : Option String
  event : Option String
  email : Option String
  data : Option JVal
  subscribed : Option Bool

/-- Response bodies of POST /api/track-event. -/
inductive TrackBody where
  | missingParams
  | accountNotFound
  | tracked (data : JVal)
  | trackFailed (details : JVal)
deriving DecidableEq, Repr

structure TrackResult where
  status : Nat
  body : TrackBody
  call : Option ProviderCall

/-- The payload posted to `/v1/track`: `event`, `email`,
`subscribed !== undefined ? subscribed : true`, `data || {}`. -/
def trackPayload (event email : String) (subscribed : Option Bool)
    (data : Option JVal) : List (String × JVal) :=
  [("event", .str event), ("email", .str email),
   ("subscribed", .bool (subscribed.getD true)),
   ("data", match data with
            | some d => if jsFalsy d then .emptyObject else d
            | none => .emptyObject)]

/-- POST /api/track-event: guard on `accountId`, `event`, `email`, look
the account up, POST to `/v1/track`, relay data or status/body. -/
def trackEventHandler (req : TrackReq) (accounts : List Obj)
    (pr : ProviderResult) : TrackResult :=
  if !(truthyStr req.accountId && truthyStr req.event && truthyStr req.email)
  then ⟨400, .missingParams, none⟩
  else
    let aid := req.accountId.getD ""
    match accounts.find? (fun a => a "id" == some (.str aid)) with
    | none => ⟨404, .accountNotFound, none⟩
    | some account =>
      let call : ProviderCall :=
        ⟨"https://api.useplunk.com/v1/track",
         trackPayload (req.event.getD "") (req.email.getD "")
           req.subscribed req.data,
         "Bearer " ++ jvalToString (account "secretKey")⟩
      match pr with
      | .ok d => ⟨200, .tracked d, some call⟩
      | .fail e => ⟨providerStatusOr500 e.status, .trackFailed (errDetails e),
                    some call⟩

/-! ### Log Viewer (src/pages/Analytics.tsx) -/

/-- The `Pagination` state of the Log Viewer (`page`, `limit`, `total`,
`totalPages`); JS numbers are modelled as `Int` so that `page - 1` can
leave the valid range. -/
structure Pagination where
  page : Int
  limit : Int
  total : Int
  totalPages : Int

/-- `EmailLog.status` values. -/
inductive LogStatus where
  | delivered
  | failed
  | pending
deriving DecidableEq, Repr

/-- An email-log record as the Log Viewer receives it (`to` and `from`
collide with Lean tokens, hence `toAddr`/`fromAddr`). -/
structure EmailLog where
  id : String
  batchId : String
  toAddr : String
  fromAddr : String
  subject : String
  status : LogStatus
  errorMessage : Option String
  isOpened : Bool
  openCount : Nat
  sentAt : String
deriving DecidableEq, Repr

structure Stats where
  delivered : Nat
  failed : Nat
  opened : Nat
  unopened : Nat
deriving DecidableEq, Repr

/-- The `stats` memo: the four counts computed from the currently loaded
page of logs by `logs.filter(...).length`. -/
def stats (logs : List EmailLog) : Stats :=
  ⟨(logs.filter (fun l => l.status == .delivered)).length,
   (logs.filter (fun l => l.status == .failed)).length,
   (logs.filter (fun l => l.isOpened)).length,
   (logs.filter (fun l => !l.isOpened)).length⟩

/-- Outcome of `handleExport`: the text file produced (if any) and
whether the error toast was shown instead. -/
structure ExportResult where
  file : Option String
  errorToast : Bool
deriving DecidableEq, Repr

/-- `handleExport`: with no loaded logs, show an error toast and produce
no file; otherwise produce `logs.map(r => r.to).join('\n')`. -/
def handleExport (logs : List EmailLog) : ExportResult :=
  if logs.length == 0 then ⟨none, true⟩
  else ⟨some (String.intercalate "\n" (logs.map (fun r => r.toAddr))), false⟩

/-- `handlePageChange`: fetch page `newPage` only when
`newPage >= 1 && newPage <= pagination.totalPages`; the result is the
page number passed to `fetchLogs`, or `none` when no fetch is issued. -/
def handlePageChange (newPage : Int) (p : Pagination) : Option Int :=
  if newPage ≥ 1 ∧ newPage ≤ p.totalPages then some newPage else none

/-- The per-entry effect of the PUT handler's `accounts.map` closure:
replace an entry whose `id` matches by the spread-merge, keep it
otherwise.  `putStep` threads the closure's `updated` variable through;
`updEntry` is its effect on a single entry. -/
def updEntry (idp : String) (body : Obj) (acc : Obj) : Obj :=
  if acc "id" == some (.str idp) then mergeSpread acc body else acc

/-! ### Concrete example values (used by witnesses below) -/

/-- A concrete stored subscriber. -/
def subEx : Obj := mkSubscriber "u1" "dup@example.com" "2024-01-01"

/-- A concrete stored account object. -/
def accEx : Obj :=
  fun k =>
    if k == "id" then some (.str "a1")
    else if k == "secretKey" then some (.str "sk_123")
    else none

/-- A concrete PUT request body, updating the `name` field. -/
def bodyEx : Obj :=
  fun k => if k == "name" then some (.str "New Name") else none

/-- A concrete provider error carrying a status and a body. -/
def errEx : ProviderErr := ⟨some 503, some (.str "overloaded"), "Request failed"⟩

/-- A concrete send-email request with all required fields. -/
def reqEx : SendReq := ⟨some "a1", some "r@example.com", some "Hello", some "World", none⟩

/-- A concrete track-event request with all required fields. -/
def treqEx : TrackReq := ⟨some "a1", some "signup", some "r@example.com", none, none⟩

/-- A concrete email-log record (delivered, opened). -/
def logEx : EmailLog :=
  ⟨"m1", "b1", "r@example.com", "s@example.com", "Hi", .delivered, none, true, 2, "2024-01-01"⟩

/-- A second concrete email-log record (failed, unopened). -/
def logEx2 : EmailLog :=
  ⟨"m2", "b1", "x@example.com", "s@example.com", "Hi2", .failed, some "bounced", false, 0, "2024-01-02"⟩

/-! ## Theorems -/

/-- Splitting a list by a boolean predicate preserves its length. -/
theorem length_filter_add_length_filter_not {α} (p : α → Bool) (l : List α) :
    (l.filter p).length + (l.filter (fun a => !p a)).length = l.length := by
  induction l with
  | nil => rfl
  | cons a t ih =>
    by_cases h : p a = true <;>
      simp [List.filter_cons, h] <;> omega

/-- Claim C6: the page-change handler issues a fetch only for pages
between 1 and `pagination.totalPages` inclusive; no request with
`page < 1` or `page > totalPages` is ever sent. -/
theorem c6_page_change_in_bounds (newPage : Int) (p : Pagination) (q : Int)
    (h : handlePageChange newPage p = some q) :
    1 ≤ q ∧ q ≤ p.totalPages := by
  unfold handlePageChange at h
  by_cases hc : newPage ≥ 1 ∧ newPage ≤ p.totalPages
  · rw [if_pos hc] at h
    cases h
    exact hc
  · rw [if_neg hc] at h
    cases h

/-- Witness for C6 at a concrete pagination state. -/
theorem c6_witness :
    1 ≤ (2 : Int) ∧ (2 : Int) ≤ (Pagination.mk 1 100 420 5).totalPages :=
  c6_page_change_in_bounds 2 ⟨1, 100, 420, 5⟩ 2 (by decide)

/-- Claim C8: the dashboard counts are computed from the loaded page
alone — `delivered`, `failed`, `opened`, `unopened` count exactly the
loaded logs with the corresponding status or open flag, and hence
`opened + unopened` equals the number of loaded logs. -/
theorem c8_stats_counts (logs : List EmailLog) :
    (stats logs).delivered = logs.countP (fun l => l.status == .delivered)
    ∧ (stats logs).failed = logs.countP (fun l => l.status == .failed)
    ∧ (stats logs).opened = logs.countP (fun l => l.isOpened)
    ∧ (stats logs).unopened = logs.countP (fun l => !l.isOpened)
    ∧ (stats logs).opened + (stats logs).unopened = logs.length := by
  refine ⟨?_, ?_, ?_, ?_, ?_⟩
  · simp [stats, List.countP_eq_length_filter]
  · simp [stats, List.countP_eq_length_filter]
  · simp [stats, List.countP_eq_length_filter]
  · simp [stats, List.countP_eq_length_filter]
  · exact length_filter_add_length_filter_not (fun l => l.isOpened) logs

/-- Claim C9: exporting a non-empty loaded page produces exactly the
`to` addresses of the loaded logs, in page order, joined by newlines;
exporting an empty page produces no file and shows the error toast. -/
theorem c9_export (logs : List EmailLog) :
    (logs = [] → (handleExport logs).file = none
      ∧ (handleExport logs).errorToast = true)
    ∧ (logs ≠ [] →
        (handleExport logs).file
          = some (String.intercalate "\n" (logs.map (fun r => r.toAddr)))
        ∧ (handleExport logs).errorToast = false) := by
  constructor
  · rintro rfl
    exact ⟨rfl, rfl⟩
  · intro hne
    have hlen : (logs.length == 0) = false := by
      simp [List.length_eq_zero, hne]
    unfold handleExport
    rw [hlen]
    exact ⟨rfl, rfl⟩

/-- Witness for C9 on a concrete two-element page. -/
theorem c9_witness :
    (handleExport [logEx, logEx2]).file
      = some (String.intercalate "\n" ([logEx, logEx2].map (fun r => r.toAddr)))
    ∧ (handleExport [logEx, logEx2]).errorToast = false :=
  (c9_export [logEx, logEx2]).2 (by decide)

/-- Claim C4: a request missing a required field — `secretKey` on
check-status, `email` on subscribers, any of accountId/to/subject/content
on send-email, any of accountId/event/email on track-event — is answered
with 400, with no provider call issued and no file write performed. -/
theorem c4_missing_fields_400 :
    (∀ pr, (checkStatusHandler none pr).status = 400
      ∧ (checkStatusHandler none pr).call = none)
    ∧ (∀ subs newId now, (subscribersHandler none subs newId now).status = 400
      ∧ (subscribersHandler none subs newId now).write = none)
    ∧ (∀ t s c f accounts pr,
        (sendEmailHandler ⟨none, t, s, c, f⟩ accounts pr).status = 400
        ∧ (sendEmailHandler ⟨none, t, s, c, f⟩ accounts pr).call = none)
    ∧ (∀ a s c f accounts pr,
        (sendEmailHandler ⟨a, none, s, c, f⟩ accounts pr).status = 400
        ∧ (sendEmailHandler ⟨a, none, s, c, f⟩ accounts pr).call = none)
    ∧ (∀ a t c f accounts pr,
        (sendEmailHandler ⟨a, t, none, c, f⟩ accounts pr).status = 400
        ∧ (sendEmailHandler ⟨a, t, none, c, f⟩ accounts pr).call = none)
    ∧ (∀ a t s f accounts pr,
        (sendEmailHandler ⟨a, t, s, none, f⟩ accounts pr).status = 400
        ∧ (sendEmailHandler ⟨a, t, s, none, f⟩ accounts pr).call = none)
    ∧ (∀ ev em d sb accounts pr,
        (trackEventHandler ⟨none, ev, em, d, sb⟩ accounts pr).status = 400
        ∧ (trackEventHandler ⟨none, ev, em, d, sb⟩ accounts pr).call = none)
    ∧ (∀ a em d sb accounts pr,
        (trackEventHandler ⟨a, none, em, d, sb⟩ accounts pr).status = 400
        ∧ (trackEventHandler ⟨a, none, em, d, sb⟩ accounts pr).call = none)
    ∧ (∀ a ev d sb accounts pr,
        (trackEventHandler ⟨a, ev, none, d, sb⟩ accounts pr).status = 400
        ∧ (trackEventHandler ⟨a, ev, none, d, sb⟩ accounts pr).call = none) := by
  refine ⟨fun pr => ⟨rfl, rfl⟩, fun subs newId now => ⟨rfl, rfl⟩,
    ?_, ?_, ?_, ?_, ?_, ?_, ?_⟩ <;>
  · intros
    constructor <;> simp [sendEmailHandler, trackEventHandler, truthyStr]

/-- Claim C5: DELETE /api/accounts/:id answers 204 (hence 204-or-200),
removes exactly the stored accounts whose id matches, preserves all
others in order (the new list is a sublist of the old), and is a no-op
on the stored list when no account matches. -/
theorem c5_delete_account (idp : String) (accounts : List Obj) :
    ((deleteAccountHandler idp accounts).status = 204
      ∨ (deleteAccountHandler idp accounts).status = 200)
    ∧ (deleteAccountHandler idp accounts).newAccounts.Sublist accounts
    ∧ (∀ a, a ∈ (deleteAccountHandler idp accounts).newAccounts
        ↔ a ∈ accounts ∧ a "id" ≠ some (.str idp))
    ∧ ((∀ a ∈ accounts, a "id" ≠ some (.str idp)) →
        (deleteAccountHandler idp accounts).newAccounts = accounts) := by
  refine ⟨Or.inl rfl, List.filter_sublist accounts, ?_, ?_⟩
  · intro a
    simp [deleteAccountHandler, List.mem_filter]
  · intro h
    exact List.filter_eq_self.mpr (fun a ha => by simp [h a ha])

/-- Witness for C5: deleting an id that matches no stored account leaves
the stored list unchanged. -/
theorem c5_witness :
    (deleteAccountHandler "zzz" [accEx]).newAccounts = [accEx] :=
  (c5_delete_account "zzz" [accEx]).2.2.2 (by decide)

/-- Counterexample to claim C1 as stated: the provider fails the
check-status call supplying status 503 and a body, yet the gateway
answers with the fixed 401, not with the provider's status. -/
theorem c1_counterexample_check_status :
    (checkStatusHandler (some "sk_live") (.fail errEx)).status = 401
    ∧ errEx.status = some 503
    ∧ errEx.data = some (.str "overloaded")
    ∧ (401 : Nat) ≠ 503 := by
  refine ⟨rfl, rfl, rfl, by decide⟩

/-- Claim C1 (amended): on a provider failure, /api/send-email and
/api/track-event answer with the provider's HTTP status where supplied
(else 500) and put the provider's error body (else the error message) in
the response's `details`; /api/check-status instead always answers 401
with a fixed body. -/
theorem c1_provider_error_relay (e : ProviderErr) :
    (∀ k : String, k ≠ "" →
      (checkStatusHandler (some k) (.fail e)).status = 401
      ∧ (checkStatusHandler (some k) (.fail e)).body = .authFailed)
    ∧ (∀ (req : SendReq) (accounts : List Obj),
        truthyStr req.accountId = true → truthyStr req.toField = true →
        truthyStr req.subject = true → truthyStr req.content = true →
        (accounts.find?
          (fun a => a "id" == some (.str (req.accountId.getD "")))).isSome = true →
        (sendEmailHandler req accounts (.fail e)).status
          = providerStatusOr500 e.status
        ∧ (sendEmailHandler req accounts (.fail e)).body
          = .sendFailed (errDetails e))
    ∧ (∀ (req : TrackReq) (accounts : List Obj),
        truthyStr req.accountId = true → truthyStr req.event = true →
        truthyStr req.email = true →
        (accounts.find?
          (fun a => a "id" == some (.str (req.accountId.getD "")))).isSome = true →
        (trackEventHandler req accounts (.fail e)).status
          = providerStatusOr500 e.status
        ∧ (trackEventHandler req accounts (.fail e)).body
          = .trackFailed (errDetails e))
    ∧ (∀ s, e.status = some s → s ≠ 0 → providerStatusOr500 e.status = s)
    ∧ (e.status = none → providerStatusOr500 e.status = 500)
    ∧ (∀ d, e.data = some d → jsFalsy d = false → errDetails e = d)
    ∧ (e.data = none → errDetails e = .str e.message) := by
  refine ⟨?_, ?_, ?_, ?_, ?_, ?_, ?_⟩
  · intro k hk
    have htr : truthyStr (some k) = true := by simp [truthyStr, hk]
    constructor <;> simp [checkStatusHandler, htr]
  · intro req accounts h1 h2 h3 h4 h5
    obtain ⟨acc, hacc⟩ := Option.isSome_iff_exists.mp h5
    constructor <;> simp [sendEmailHandler, h1, h2, h3, h4, hacc]
  · intro req accounts h1 h2 h3 h5
    obtain ⟨acc, hacc⟩ := Option.isSome_iff_exists.mp h5
    constructor <;> simp [trackEventHandler, h1, h2, h3, hacc]
  · intro s hs hs0
    simp [providerStatusOr500, hs, hs0]
  · intro hs
    simp [providerStatusOr500, hs]
  · intro d hd hdf
    simp [errDetails, hd, hdf]
  · intro hd
    simp [errDetails, hd]

/-- Witness for (amended) C1 at a concrete failing provider call. -/
theorem c1_witness :
    (checkStatusHandler (some "sk_123") (.fail errEx)).status = 401
    ∧ (sendEmailHandler reqEx [accEx] (.fail errEx)).status
        = providerStatusOr500 errEx.status
    ∧ (trackEventHandler treqEx [accEx] (.fail errEx)).status
        = providerStatusOr500 errEx.status
    ∧ providerStatusOr500 errEx.status = 503
    ∧ errDetails errEx = .str "overloaded" := by
  obtain ⟨h1, h2, h3, h4, _, h6, _⟩ := c1_provider_error_relay errEx
  exact ⟨(h1 "sk_123" (by decide)).1,
    (h2 reqEx [accEx] (by decide) (by decide) (by decide) (by decide)
      (by decide)).1,
    (h3 treqEx [accEx] (by decide) (by decide) (by decide) (by decide)).1,
    h4 503 rfl (by decide),
    h6 (.str "overloaded") rfl (by decide)⟩

/-- Counterexample to claim C3 as stated: at a concrete well-formed
request, the payload the gateway forwards is not "exactly the request's
fields with `content` renamed to `body`" — it also carries a constant
`subscribed: true` field. -/
theorem c3_counterexample :
    ((sendEmailHandler reqEx [accEx] (.ok .null)).call.map ProviderCall.payload)
      = some (sendPayload "r@example.com" "Hello" "World" none)
    ∧ sendPayload "r@example.com" "Hello" "World" none
      ≠ sendPayloadClaimed "r@example.com" "Hello" "World" none := by
  refine ⟨rfl, by decide⟩

/-- Claim C3 (amended): with all required fields present and a matching
stored account, the forwarded payload carries the request's `to` and
`subject`, its `content` under the provider's `body` key, a constant
`subscribed: true`, and `from` — trimmed — only when given and nonempty
after trimming; the Authorization header is `Bearer ` followed by that
account's stored secret key. -/
theorem c3_send_forwarding (aid toA subj cont : String) (f : Option String)
    (accounts : List Obj) (acc : Obj) (key : String) (pr : ProviderResult)
    (haid : aid ≠ "") (hto : toA ≠ "") (hsubj : subj ≠ "") (hcont : cont ≠ "")
    (hfind : accounts.find? (fun a => a "id" == some (.str aid)) = some acc)
    (hkey : acc "secretKey" = some (.str key)) :
    ∃ call,
      (sendEmailHandler ⟨some aid, some toA, some subj, some cont, f⟩
        accounts pr).call = some call
      ∧ call.url = "https://api.useplunk.com/v1/send"
      ∧ call.authHeader = "Bearer " ++ key
      ∧ call.payload = sendPayload toA subj cont f
      ∧ (f = none → call.payload
          = [("to", .str toA), ("subject", .str subj), ("body", .str cont),
             ("subscribed", .bool true)])
      ∧ (∀ fs, f = some fs → fs ≠ "" → fs.trim ≠ "" → call.payload
          = [("to", .str toA), ("subject", .str subj), ("body", .str cont),
             ("subscribed", .bool true), ("from", .str fs.trim)])
      ∧ (∀ fs, f = some fs → fs.trim = "" → call.payload
          = [("to", .str toA), ("subject", .str subj), ("body", .str cont),
             ("subscribed", .bool true)]) := by
  have hcall : (sendEmailHandler ⟨some aid, some toA, some subj, some cont, f⟩
      accounts pr).call
      = some ⟨"https://api.useplunk.com/v1/send", sendPayload toA subj cont f,
              "Bearer " ++ key⟩ := by
    cases pr <;>
      simp [sendEmailHandler, truthyStr, haid, hto, hsubj, hcont, hfind,
        hkey, jvalToString]
  refine ⟨_, hcall, rfl, rfl, rfl, ?_, ?_, ?_⟩
  · rintro rfl
    rfl
  · rintro fs rfl hne htr
    have : (fs != "" && fs.trim != "") = true := by simp [hne, htr]
    simp [sendPayload, this]
  · rintro fs rfl htr
    have : (fs.trim != "") = false := by simp [htr]
    simp [sendPayload, this]

/-- Witness for (amended) C3: a concrete request without a `from`
override yields the exact four-field payload and the bearer header built
from the stored secret key. -/
theorem c3_witness :
    ∃ call,
      (sendEmailHandler
        ⟨some "a1", some "r@example.com", some "Hello", some "World", none⟩
        [accEx] (.ok .null)).call = some call
      ∧ call.authHeader = "Bearer " ++ "sk_123"
      ∧ call.payload
        = [("to", .str "r@example.com"), ("subject", .str "Hello"),
           ("body", .str "World"), ("subscribed", .bool true)] := by
  obtain ⟨call, hc, _, hauth, _, hnone, _, _⟩ :=
    c3_send_forwarding "a1" "r@example.com" "Hello" "World" none
      [accEx] accEx "sk_123" (.ok .null)
      (by decide) (by decide) (by decide) (by decide) rfl rfl
  exact ⟨call, hc, hauth, hnone rfl⟩

/-- Claim C2: posting an email that already occurs in the stored
subscriber list yields 409 and no write; posting a fresh email appends a
new subscriber carrying that email and reports success. -/
theorem c2_subscribers (e : String) (he : e ≠ "") (subs : List Obj)
    (newId now : String) :
    ((∃ s ∈ subs, s "email" = some (.str e)) →
      (subscribersHandler (some e) subs newId now).status = 409
      ∧ (subscribersHandler (some e) subs newId now).write = none)
    ∧ ((∀ s ∈ subs, s "email" ≠ some (.str e)) →
      (subscribersHandler (some e) subs newId now).status = 200
      ∧ (subscribersHandler (some e) subs newId now).write
          = some (subs ++ [mkSubscriber newId e now])
      ∧ mkSubscriber newId e now "email" = some (.str e)) := by
  have htr : truthyStr (some e) = true := by simp [truthyStr, he]
  constructor
  · rintro ⟨s, hs, hmail⟩
    have hany : (subs.any fun s => s "email" == some (.str e)) = true :=
      List.any_eq_true.mpr ⟨s, hs, by simp [hmail]⟩
    constructor <;> simp [subscribersHandler, htr, hany]
  · intro h
    have hany : (subs.any fun s => s "email" == some (.str e)) = false := by
      rw [Bool.eq_false_iff]
      intro hc
      obtain ⟨s, hs, hmail⟩ := List.any_eq_true.mp hc
      exact h s hs (by simpa using hmail)
    refine ⟨by simp [subscribersHandler, htr, hany],
      by simp [subscribersHandler, htr, hany], ?_⟩
    simp [mkSubscriber]

/-- Witness for C2: with one stored subscriber, re-posting its email is
refused with 409 and no write, and posting a fresh email appends. -/
theorem c2_witness :
    (subscribersHandler (some "dup@example.com") [subEx] "u2" "t2").status = 409
    ∧ (subscribersHandler (some "dup@example.com") [subEx] "u2" "t2").write = none
    ∧ (subscribersHandler (some "new@example.com") [subEx] "u2" "t2").status = 200
    ∧ (subscribersHandler (some "new@example.com") [subEx] "u2" "t2").write
        = some ([subEx] ++ [mkSubscriber "u2" "new@example.com" "t2"]) := by
  obtain ⟨hdup, _⟩ := c2_subscribers "dup@example.com" (by decide) [subEx] "u2" "t2"
  obtain ⟨_, hnew⟩ := c2_subscribers "new@example.com" (by decide) [subEx] "u2" "t2"
  have h1 := hdup ⟨subEx, by simp, rfl⟩
  have h2 := hnew (by decide)
  exact ⟨h1.1, h1.2, h2.1, h2.2.1⟩

/-- The list built by the PUT handler's fold is the initial accumulator
followed by the per-entry update of each traversed account. -/
theorem foldl_putStep_fst (idp : String) (body : Obj) :
    ∀ (l : List Obj) (init : List Obj) (u : Option Obj),
      (l.foldl (putStep idp body) (init, u)).1
        = init ++ l.map (updEntry idp body) := by
  intro l
  induction l with
  | nil => intro init u; simp
  | cons a t ih =>
    intro init u
    rw [List.foldl_cons]
    by_cases h : (a "id" == some (.str idp)) = true
    · rw [show putStep idp body (init, u) a
          = (init ++ [mergeSpread a body], some (mergeSpread a body)) from
          by simp [putStep, h]]
      rw [ih]
      simp [updEntry, h]
    · rw [show putStep idp body (init, u) a = (init ++ [a], u) from
          by simp [putStep, h]]
      rw [ih]
      simp [updEntry, h]

/-- When no traversed account matches, the fold leaves the closure's
`updated` variable untouched. -/
theorem foldl_putStep_snd_nomatch (idp : String) (body : Obj) :
    ∀ (l : List Obj) (init : List Obj) (u : Option Obj),
      (∀ a ∈ l, (a "id" == some (.str idp)) = false) →
      (l.foldl (putStep idp body) (init, u)).2 = u := by
  intro l
  induction l with
  | nil => intro init u _; rfl
  | cons a t ih =>
    intro init u h
    rw [List.foldl_cons]
    rw [show putStep idp body (init, u) a = (init ++ [a], u) from
        by simp [putStep, h a (by simp)]]
    exact ih _ _ (fun b hb => h b (by simp [hb]))

/-- The list the PUT handler writes back is the entrywise update of the
stored list. -/
theorem putAccounts_eq_map (idp : String) (body : Obj) (accounts : List Obj) :
    (putAccountHandler idp body accounts).newAccounts
      = accounts.map (updEntry idp body) := by
  show (accounts.foldl (putStep idp body) ([], none)).1
      = accounts.map (updEntry idp body)
  rw [foldl_putStep_fst]
  simp

/-- Claim C7: a PUT whose id matches replaces each matching stored entry
by the shallow merge with the request body — request fields override,
unmentioned fields survive — and every entry with a different id is left
unchanged (positions and length are preserved). -/
theorem c7_put_merge (idp : String) (body : Obj) (accounts : List Obj) :
    (putAccountHandler idp body accounts).newAccounts.length = accounts.length
    ∧ ∀ (i : Nat) (acc0 : Obj), accounts[i]? = some acc0 →
      (acc0 "id" ≠ some (.str idp) →
        (putAccountHandler idp body accounts).newAccounts[i]? = some acc0)
      ∧ (acc0 "id" = some (.str idp) →
        ∃ u, (putAccountHandler idp body accounts).newAccounts[i]? = some u
          ∧ (∀ k v, body k = some v → u k = some v)
          ∧ (∀ k, body k = none → u k = acc0 k)) := by
  have hmap := putAccounts_eq_map idp body accounts
  constructor
  · rw [hmap, List.length_map]
  · intro i acc0 hacc
    constructor
    · intro hne
      rw [hmap, List.getElem?_map, hacc]
      have hb : (acc0 "id" == some (.str idp)) = false := by
        simp [hne]
      simp [updEntry, hb]
    · intro heq
      refine ⟨mergeSpread acc0 body, ?_, ?_, ?_⟩
      · rw [hmap, List.getElem?_map, hacc]
        simp [updEntry, heq]
      · intro k v hkv
        simp [mergeSpread, hkv]
      · intro k hk
        simp [mergeSpread, hk]

/-- Witness for C7: updating the stored account by id `a1` with a body
that sets `name` yields an entry whose `name` is the new value and whose
`secretKey` survives from the old account. -/
theorem c7_witness :
    ∃ u, (putAccountHandler "a1" bodyEx [accEx]).newAccounts[0]? = some u
      ∧ u "name" = some (.str "New Name")
      ∧ u "secretKey" = some (.str "sk_123") := by
  obtain ⟨_, hpos⟩ := c7_put_merge "a1" bodyEx [accEx]
  obtain ⟨u, hu, hov, hsur⟩ := (hpos 0 accEx rfl).2 rfl
  refine ⟨u, hu, hov "name" _ rfl, ?_⟩
  rw [hsur "secretKey" rfl]
  decide

/-- Claim C10: a PUT whose id matches no stored account answers 200 with
an empty JSON object, and the account list written back is identical to
the stored one. -/
theorem c10_put_no_match (idp : String) (body : Obj) (accounts : List Obj)
    (h : ∀ a ∈ accounts, a "id" ≠ some (.str idp)) :
    (putAccountHandler idp body accounts).status = 200
    ∧ (∀ k, (putAccountHandler idp body accounts).body k = none)
    ∧ (putAccountHandler idp body accounts).newAccounts = accounts := by
  have hb : ∀ a ∈ accounts, (a "id" == some (.str idp)) = false := by
    intro a ha
    simp [h a ha]
  refine ⟨rfl, ?_, ?_⟩
  · intro k
    show ((accounts.foldl (putStep idp body) ([], none)).2.getD emptyObj) k = none
    rw [foldl_putStep_snd_nomatch idp body accounts [] none hb]
    rfl
  · rw [putAccounts_eq_map]
    have : ∀ a ∈ accounts, updEntry idp body a = a := by
      intro a ha
      simp [updEntry, hb a ha]
    calc accounts.map (updEntry idp body) = accounts.map id :=
          List.map_congr_left this
      _ = accounts := List.map_id accounts

/-- Witness for C10: a PUT against an id absent from the store leaves
the stored list unchanged and answers 200. -/
theorem c10_witness :
    (putAccountHandler "zzz" bodyEx [accEx]).status = 200
    ∧ (putAccountHandler "zzz" bodyEx [accEx]).newAccounts = [accEx] := by
  have h := c10_put_no_match "zzz" bodyEx [accEx] (by decide)
  exact ⟨h.1, h.2.2⟩

end Emailit
